import Mathlib

/-!
Verification of the login-flow orchestration in
`src/core/gemini_automation_uc.py` (`GeminiAutomationUC`).

The embedding translates the source functions into pure Lean functions.
Browser interaction is abstracted by a `FlowEnv` record that fixes, for one
run, what each DOM/URL query observes (polling loops observe an iteration-
indexed answer).  Timestamps are epoch seconds as `Int`/`Nat`; the
`strftime` rendering of `expires_at` is elided and the raw seconds value is
kept.  Every loop of the source sleeps a fixed positive interval inside a
fixed time window, so it runs a bounded number of iterations; the bound is
made explicit as structural fuel.
-/

namespace GeminiUC

/-- `listStartsWith pat l` : `pat` is a leading run of `l` (over characters). -/
def listStartsWith : List Char → List Char → Bool
  | [], _ => true
  | _ :: _, [] => false
  | a :: as, b :: bs => a == b && listStartsWith as bs

/-- `listHasSub pat l` : `pat` occurs contiguously inside `l`.
This is Python's `pat in l` substring test. -/
def listHasSub (pat : List Char) : List Char → Bool
  | [] => listStartsWith pat []
  | l@(_ :: rest) => listStartsWith pat l || listHasSub pat rest

/-- Python's `sub in s` substring containment on strings. -/
def pyContains (s sub : String) : Bool :=
  listHasSub sub.toList s.toList

/-- One splitting pass of Python's `s.split(sep)` for a non-empty `sep`,
over character lists.  `fuel` bounds the number of characters consumed and
is instantiated with the input length, so the fallback branches are
unreachable; recursion is structural so that concrete inputs evaluate by
`rfl`/`decide`. -/
def pySplitAux (sep : List Char) : Nat → List Char → List Char → List (List Char)
  | _, acc, [] => [acc.reverse]
  | 0, acc, s => [acc.reverse ++ s]
  | fuel + 1, acc, s@(c :: rest) =>
    if listStartsWith sep s && !sep.isEmpty then
      acc.reverse :: pySplitAux sep fuel [] (s.drop sep.length)
    else
      pySplitAux sep fuel (c :: acc) rest

/-- Python's `s.split(sep)` for a non-empty separator. -/
def pySplit (s sep : String) : List String :=
  (pySplitAux sep.toList (s.toList.length + 1) [] s.toList).map String.mk

/-- Python's `xs[i]` on the result of a split; the source only indexes
positions guaranteed to exist by a preceding `in` test, so the default is
never observed. -/
def pyIdx (xs : List String) (i : Nat) : String :=
  xs.getD i ""

/-- Python's `s.lower()` (ASCII case folding suffices for the keywords used). -/
def pyLower (s : String) : String :=
  String.mk (s.toList.map Char.toLower)

/-- A cookie as returned by `driver.get_cookies()`: the `expiry` key may be
absent. -/
structure Cookie where
  name : String
  value : String
  expiry : Option Int
deriving DecidableEq, Repr

/-- The credential bundle built by `_extract_config` (its `config` dict).
`expires_at` is kept as epoch seconds; the source renders it with
`strftime`, which is a formatting step only. -/
structure Config where
  id : String
  csesidx : String
  config_id : String
  secure_c_ses : Option String
  host_c_oses : Option String
  expires_at : Int
deriving DecidableEq, Repr

/-- The only two dict shapes returned by the flow:
`{"success": True, "config": ...}` or `{"success": False, "error": ...}`. -/
inductive FlowResult where
  | success (config : Config)
  | failure (error : String)
deriving DecidableEq, Repr

/-- `url.split("cid/")[1].split("?")[0].split("/")[0]` (source line 656). -/
def configIdFrom (url : String) : String :=
  pyIdx (pySplit (pyIdx (pySplit (pyIdx (pySplit url "cid/") 1) "?") 0) "/") 0

/-- `url.split("csesidx=")[1].split("&")[0] if "csesidx=" in url else ""`
(source line 657). -/
def csesidxFrom (url : String) : String :=
  if pyContains url "csesidx=" then
    pyIdx (pySplit (pyIdx (pySplit url "csesidx=") 1) "&") 0
  else ""

/-- `next((c["value"] for c in cookies if c["name"] == "__Secure-C_SES"), None)`
(source line 661). -/
def sesCookieVal (cookies : List Cookie) : Option String :=
  (cookies.find? (fun c => c.name == "__Secure-C_SES")).map Cookie.value

/-- `next((c["value"] for c in cookies if c["name"] == "__Host-C_OSES"), None)`
(source line 662). -/
def hostCookieVal (cookies : List Cookie) : Option String :=
  (cookies.find? (fun c => c.name == "__Host-C_OSES")).map Cookie.value

/-- The expiry computation of `_extract_config` (lines 665-669): the
primary cookie's reported expiry minus the 12-hour margin when available,
else now plus 12 hours.  43200 s = 12 h. -/
def expiresFrom (cookies : List Cookie) (now : Int) : Int :=
  match cookies.find? (fun c => c.name == "__Secure-C_SES") with
  | some c =>
    match c.expiry with
    | some e => e - 43200
    | none => now + 43200
  | none => now + 43200

/-- `GeminiAutomationUC._extract_config` (source lines 644-681).
`url0` is `driver.current_url` on entry; if it lacks `"cid/"` the method
re-navigates to the console root and `urlAfterNav` is the URL read after
that.  Cookie lookups are `next(...)` over the jar, i.e. first match. -/
def extractConfig (email url0 urlAfterNav : String) (cookies : List Cookie)
    (now : Int) : FlowResult :=
  let url := if pyContains url0 "cid/" then url0 else urlAfterNav
  if pyContains url "cid/" then
    FlowResult.success
      { id := email
        csesidx := csesidxFrom url
        config_id := configIdFrom url
        secure_c_ses := sesCookieVal cookies
        host_c_oses := hostCookieVal cookies
        expires_at := expiresFrom cookies now }
  else FlowResult.failure "cid not found"

/-- Deterministic record of what the browser/world answers during one run.
Polling loops read an iteration-indexed answer; distinct navigation epochs
read distinct URL fields.  Exceptions that the source does not catch are
modelled as `Option String` raise flags. -/
structure FlowEnv where
  /-- `driver.current_url` after `driver.get(LOGIN_URL)` (line 208); also the
  URL `_extract_config` reads when the already-authenticated short circuit
  takes it there directly (no navigation happens in between). -/
  urlAfterLogin : String
  /-- the email field is located and typed without exception (lines 215-225) -/
  emailOk : Bool
  emailErr : String
  /-- the continue button is located and clicked without exception -/
  continueOk : Bool
  continueErr : String
  /-- `datetime.now()` recorded right after the continue click (line 245) -/
  clickContinueTime : Nat
  /-- `_find_code_input()` before the send-code probe loop (line 402) -/
  codeInputPre : Bool
  /-- `_has_captcha()` at probe-loop iteration `i` (line 429) -/
  captchaAt : Nat → Bool
  /-- `_find_code_input()` at probe-loop iteration `i` (line 433) -/
  codeInputAtSend : Nat → Bool
  /-- the legacy `sign-in-with-email` control is clickable at iteration `i` -/
  legacyBtnAt : Nat → Bool
  /-- `_element_text` outputs of the button/[role=button] candidates at
  iteration `i` (lines 450-458) -/
  sendCandidatesAt : Nat → List String
  /-- some selector of `_wait_for_code_input` matches at its iteration `i` -/
  codeInputWaitAt : Nat → Bool
  /-- the mailbox behind `mail_client`: (message timestamp, code) pairs -/
  mailMsgs : List (Nat × String)
  /-- the `pinInput` entry path succeeds (lines 275-282) -/
  pinFieldOk : Bool
  /-- the `span[data-index] + active element` fallback succeeds (lines 284-288) -/
  spanFallbackOk : Bool
  codeEnterErr : String
  /-- the fixed-XPath verify button exists (line 297) -/
  verifyFixedPresent : Bool
  /-- `btn.text` of every `<button>` scanned by the verify fallback (line 301) -/
  verifyButtons : List String
  /-- `driver.current_url` inside `_handle_agreement_page` (line 564) -/
  urlAtAgreement : String
  /-- the agree button appears within its 5-unit wait (line 566) -/
  agreeBtnFound : Bool
  /-- `agree_btn.click()` raises (only `TimeoutException` is caught there,
  so this exception escapes `_run_flow`) -/
  agreeClickRaises : Option String
  /-- `driver.current_url` after navigating to the business root (line 320) -/
  urlAfterBusinessNav : String
  /-- `driver.current_url` inside `_handle_username_setup` (line 594) -/
  usernameSetupUrl : String
  /-- a username field is found displayed at probe iteration `i` (lines 609-619) -/
  usernameVisibleAt : Nat → Bool
  /-- typing the placeholder name succeeds (lines 627-640) -/
  usernameTypeOk : Bool
  /-- URL observed at iteration `i` of the first `_wait_for_business_params` -/
  bpUrl1 : Nat → String
  /-- URL observed at iteration `i` of the second call, after the refresh -/
  bpUrl2 : Nat → String
  /-- `driver.current_url` on entry to the final `_extract_config` (line 647) -/
  extractUrl : String
  /-- the URL after `_extract_config`'s defensive re-navigation (line 651) -/
  extractUrlAfterNav : String
  cookies : List Cookie
  /-- `datetime.now()` inside `_extract_config` -/
  now : Int
  /-- `_create_driver()` raises (caught by `login_and_extract`) -/
  driverCreateRaises : Option String

/-- Observable step events of one run, in order. -/
inductive Ev where
  | enterEmail
  | clickContinue
  | sendCodeClick
  | pollCode (timeout interval sinceTime : Nat)
  | enterCode (code : String)
  | verifyClick
  | navBusiness
  | usernameSetup
  | bpPoll
  | refreshPage
  | extractCfg
deriving DecidableEq, Repr

/-- How `_click_send_code_button` ends.  The boolean the source returns is
`toBool`; the `captcha` case is additionally distinguished there by the
"captcha detected" warning log (line 430). -/
inductive SendCodeOutcome where
  | alreadyHasInput
  | clicked
  | captcha
  | notFound
deriving DecidableEq, Repr

def SendCodeOutcome.toBool : SendCodeOutcome → Bool
  | .alreadyHasInput => true
  | .clicked => true
  | .captcha => false
  | .notFound => false

/-- The bilingual keyword list of `_click_send_code_button` (lines 409-425). -/
def sendKeywords : List String :=
  ["通过电子邮件发送验证码", "通过电子邮件发送", "发送验证码", "发送验证",
   "发送代码", "获取验证码", "获取代码",
   "email", "send code", "send verification", "verification code",
   "one-time", "otp"]

/-- A candidate's aggregated text matches: non-empty, and some lower-cased
keyword is a substring of its lower-cased text (lines 462-466). -/
def sendCandidateHit (text : String) : Bool :=
  !(text == "") && (sendKeywords.map pyLower).any (fun k => pyContains (pyLower text) k)

/-- Iteration bound of the send-code probe loop: the 25-second window with a
cost of at least 2.5 seconds per non-returning iteration (the 2-second
`WebDriverWait` for the legacy control plus the 0.5-second sleep). -/
def sendCodeIters : Nat := 10

/-- The `while time.time() - start < timeout_s` loop of
`_click_send_code_button` (lines 428-477), checks in source order. -/
def clickSendCodeLoop (env : FlowEnv) : Nat → Nat → SendCodeOutcome
  | 0, _ => .notFound
  | fuel + 1, i =>
    if env.captchaAt i then .captcha
    else if env.codeInputAtSend i then .alreadyHasInput
    else if env.legacyBtnAt i then .clicked
    else if (env.sendCandidatesAt i).any sendCandidateHit then .clicked
    else clickSendCodeLoop env fuel (i + 1)

/-- `GeminiAutomationUC._click_send_code_button` (lines 339-509). -/
def clickSendCodeButton (env : FlowEnv) : SendCodeOutcome :=
  if env.codeInputPre then .alreadyHasInput
  else clickSendCodeLoop env sendCodeIters 0

/-- Shared shape of the fixed-interval presence probes: try `p` once per
iteration, giving up when the fuel (iterations in the time window) runs out. -/
def probeLoop (p : Nat → Bool) : Nat → Nat → Bool
  | 0, _ => false
  | fuel + 1, i => if p i then true else probeLoop p fuel (i + 1)

/-- `_wait_for_code_input` (lines 511-535): 30-second window, 0.3-second
sleep per iteration, hence 100 iterations. -/
def waitForCodeInput (present : Nat → Bool) : Bool :=
  probeLoop present 100 0

/-- `"csesidx=" in url and "/cid/" in url` (line 586). -/
def businessParamsReady (url : String) : Bool :=
  pyContains url "csesidx=" && pyContains url "/cid/"

/-- `_wait_for_business_params` (lines 582-590): `for _ in range(30)`. -/
def waitForBusinessParams (urlAt : Nat → String) : Bool :=
  (List.range 30).any (fun i => businessParamsReady (urlAt i))

/-- `_wait_for_cid` (lines 574-580): `for _ in range(10)`; defined in the
source but not called from `_run_flow`. -/
def waitForCid (urlAt : Nat → String) : Bool :=
  (List.range 10).any (fun i => pyContains (urlAt i) "cid")

/-- `_handle_username_setup` (lines 592-642): bail out on the login domain,
else probe up to 30 one-second iterations for a displayed name field, then
type the placeholder name. -/
def handleUsernameSetup (env : FlowEnv) : Bool :=
  if pyContains env.usernameSetupUrl "auth.business.gemini.google/login" then false
  else if probeLoop env.usernameVisibleAt 30 0 then env.usernameTypeOk
  else false

/-- Which verify control the ClickVerify step clicks (lines 296-307):
the fixed XPath control first, else the first `<button>` whose `text`
contains `"验证"`. -/
inductive VerifyClick where
  | fixed
  | scanned (label : String)
deriving DecidableEq, Repr

def clickVerifyChoice (fixedPresent : Bool) (buttons : List String) : Option VerifyClick :=
  if fixedPresent then some .fixed
  else (buttons.find? (fun t => pyContains t "验证")).map VerifyClick.scanned

/-- The spec's description of the ClickVerify fallback, for comparison with
`clickVerifyChoice`: scan for the "verify" text of both supported languages. -/
def specVerifyMatch (t : String) : Bool :=
  pyContains (pyLower t) "verify" || pyContains t "验证"

/-- Spec-side ClickVerify (refinement comparison only): first button whose
text matches the bilingual keyword set. -/
def specClickVerifyChoice (fixedPresent : Bool) (buttons : List String) : Option VerifyClick :=
  if fixedPresent then some .fixed
  else (buttons.find? specVerifyMatch).map VerifyClick.scanned

/-- Modelled from the spec: the `CodeSource` collaborator (`mail_client`) is
external to `src/` and specified only by its interface
`poll_for_code(timeout, interval, since_time) -> code|absent`, with
"messages older than the request must be ignored".  The model returns the
first mailbox message whose timestamp is not before `sinceTime`, paired
with that timestamp. -/
def pollForCode (msgs : List (Nat × String)) (_timeout _interval sinceTime : Nat) :
    Option (Nat × String) :=
  (msgs.filter (fun m => sinceTime ≤ m.1)).head?

/-- `"business.gemini.google" in url and "csesidx=" in url and "/cid/" in url`
(line 209). -/
def hasBusinessParams (url : String) : Bool :=
  pyContains url "business.gemini.google" && pyContains url "csesidx=" &&
    pyContains url "/cid/"

/-- Whether `_handle_agreement_page` ends in an uncaught exception: only on
the `/admin/create` path, only if the agree button appears (the absent case
is a caught `TimeoutException`), and only if its click raises. -/
def agreementRaise (env : FlowEnv) : Option String :=
  if pyContains env.urlAtAgreement "/admin/create" && env.agreeBtnFound then
    env.agreeClickRaises
  else none

/-- `_run_flow` from the username-setup check to the end (lines 319-337):
invoke username setup only when `"cid"` is absent from the URL, run
`_wait_for_business_params`, on failure refresh and retry once, then
extract. -/
def businessPhase (email : String) (env : FlowEnv) : FlowResult × List Ev :=
  let userTr : List Ev :=
    if pyContains env.urlAfterBusinessNav "cid" then []
    else
      let _ := handleUsernameSetup env
      [Ev.usernameSetup]
  if waitForBusinessParams env.bpUrl1 then
    (extractConfig email env.extractUrl env.extractUrlAfterNav env.cookies env.now,
     userTr ++ [Ev.bpPoll, Ev.extractCfg])
  else if waitForBusinessParams env.bpUrl2 then
    (extractConfig email env.extractUrl env.extractUrlAfterNav env.cookies env.now,
     userTr ++ [Ev.bpPoll, Ev.refreshPage, Ev.bpPoll, Ev.extractCfg])
  else
    (FlowResult.failure "URL parameters not found",
     userTr ++ [Ev.bpPoll, Ev.refreshPage, Ev.bpPoll])

/-- `_run_flow` from code entry onward (lines 272-337): enter the code (two
paths, both failing is terminal), click verify (never fatal), handle the
agreement page (an uncaught click exception escapes), navigate to the
business console, then `businessPhase`. -/
def postCodePhase (email : String) (env : FlowEnv) (code : String) :
    Except String (FlowResult × List Ev) :=
  if env.pinFieldOk || env.spanFallbackOk then
    let verifyTr : List Ev :=
      match clickVerifyChoice env.verifyFixedPresent env.verifyButtons with
      | some _ => [Ev.verifyClick]
      | none => []
    match agreementRaise env with
    | some e => .error e
    | none =>
      let p := businessPhase email env
      .ok (p.1, [Ev.enterCode code] ++ verifyTr ++ [Ev.navBusiness] ++ p.2)
  else
    .ok (FlowResult.failure ("failed to input code: " ++ env.codeEnterErr),
         [Ev.enterCode code] ++ [])

/-- `GeminiAutomationUC._run_flow` (lines 198-337), with its event trace.
`.error` is an exception escaping `_run_flow` (to be caught by
`login_and_extract`); every ordinary return is `.ok`. -/
def runFlowE (email : String) (env : FlowEnv) : Except String (FlowResult × List Ev) :=
  if hasBusinessParams env.urlAfterLogin then
    .ok (extractConfig email env.urlAfterLogin env.extractUrlAfterNav env.cookies env.now,
         [Ev.extractCfg])
  else if !env.emailOk then
    .ok (FlowResult.failure ("failed to enter email: " ++ env.emailErr), [])
  else if !env.continueOk then
    .ok (FlowResult.failure ("failed to click continue: " ++ env.continueErr),
         [Ev.enterEmail])
  else
    let sinceT := env.clickContinueTime
    let preTr : List Ev := [Ev.enterEmail, Ev.clickContinue]
    match clickSendCodeButton env with
    | .captcha => .ok (FlowResult.failure "send code button not found", preTr)
    | .notFound => .ok (FlowResult.failure "send code button not found", preTr)
    | outcome =>
      let sendTr : List Ev :=
        match outcome with
        | .clicked => [Ev.sendCodeClick]
        | _ => []
      if waitForCodeInput env.codeInputWaitAt then
        let tr1 := preTr ++ sendTr ++ [Ev.pollCode 40 4 sinceT]
        match pollForCode env.mailMsgs 40 4 sinceT with
        | none => .ok (FlowResult.failure "verification code timeout", tr1)
        | some (_, c) =>
          if c == "" then .ok (FlowResult.failure "verification code timeout", tr1)
          else
            match postCodePhase email env c with
            | .error e => .error e
            | .ok (r, tr) => .ok (r, tr1 ++ tr)
      else
        .ok (FlowResult.failure "code input not found", preTr ++ sendTr)

/-- `GeminiAutomationUC.login_and_extract` (lines 47-56): run
`_create_driver` then `_run_flow` under a catch-all that converts any
exception into the failure dict shape. -/
def loginAndExtract (email : String) (env : FlowEnv) : FlowResult :=
  match env.driverCreateRaises with
  | some e => FlowResult.failure e
  | none =>
    match runFlowE email env with
    | .ok p => p.1
    | .error e => FlowResult.failure e

/-- Event trace of a run that returns normally (empty for an escaping
exception); used to state concrete trace facts. -/
def flowTraceOf (email : String) (env : FlowEnv) : List Ev :=
  match runFlowE email env with
  | .ok p => p.2
  | .error _ => []

/-- Is this event the CodeSource poll? -/
def evIsPoll : Ev → Bool
  | .pollCode _ _ _ => true
  | _ => false

/-- A run in which every step succeeds: the login URL has no business
markers, the continue click already triggers the code mail (so the probe's
pre-check sees the code field), the mailbox holds one fresh code, and the
business URL carries both markers. -/
def baseEnv : FlowEnv where
  urlAfterLogin := "auth/login"
  emailOk := true
  emailErr := ""
  continueOk := true
  continueErr := ""
  clickContinueTime := 100
  codeInputPre := true
  captchaAt := fun _ => false
  codeInputAtSend := fun _ => false
  legacyBtnAt := fun _ => false
  sendCandidatesAt := fun _ => []
  codeInputWaitAt := fun i => i == 0
  mailMsgs := [(150, "123456")]
  pinFieldOk := true
  spanFallbackOk := false
  codeEnterErr := ""
  verifyFixedPresent := true
  verifyButtons := []
  urlAtAgreement := "x"
  agreeBtnFound := false
  agreeClickRaises := none
  urlAfterBusinessNav := "b/cid/A?csesidx=B"
  usernameSetupUrl := ""
  usernameVisibleAt := fun _ => false
  usernameTypeOk := false
  bpUrl1 := fun _ => "b/cid/A?csesidx=B"
  bpUrl2 := fun _ => "b/cid/A?csesidx=B"
  extractUrl := "b/cid/A?csesidx=B"
  extractUrlAfterNav := ""
  cookies := [⟨"__Secure-C_SES", "s", some 100000⟩, ⟨"__Host-C_OSES", "h", none⟩]
  now := 0
  driverCreateRaises := none

/-- `baseEnv` but the code field is not yet visible and a captcha widget is
present when the send-code probe starts. -/
def envCaptcha : FlowEnv :=
  { baseEnv with codeInputPre := false, captchaAt := fun _ => true }

/-- `baseEnv` but the code field never appears and no send-code control of
any kind ever matches: the probe window elapses. -/
def envQuiet : FlowEnv :=
  { baseEnv with codeInputPre := false }

/-- `baseEnv` but the fixed verify control is absent and the only button is
labelled with the English word "Verify". -/
def envVerifyEn : FlowEnv :=
  { baseEnv with verifyFixedPresent := false, verifyButtons := ["Verify"] }

/-- `baseEnv` but the business-page URL never gains the two markers, before
and after the refresh. -/
def envParamsNever : FlowEnv :=
  { baseEnv with bpUrl1 := fun _ => "b", bpUrl2 := fun _ => "b" }

/-- `baseEnv` but the session is already authenticated when the login page
is opened. -/
def envAlreadyAuthed : FlowEnv :=
  { baseEnv with urlAfterLogin := "business.gemini.google/a/cid/X?csesidx=Y" }

/-- `baseEnv` but the agreement page's agree-button click raises. -/
def envAgreeRaises : FlowEnv :=
  { baseEnv with urlAtAgreement := "g/admin/create", agreeBtnFound := true,
                 agreeClickRaises := some "click intercepted" }

/- ------------------------------------------------------------------ -/
/- Helper lemmas                                                      -/
/- ------------------------------------------------------------------ -/

theorem listHasSub_of_listStartsWith {pat l : List Char}
    (h : listStartsWith pat l = true) : listHasSub pat l = true := by
  cases l with
  | nil => exact h
  | cons b bs => simp [listHasSub, h]

theorem listHasSub_of_cons {a : Char} {pat l : List Char}
    (h : listHasSub (a :: pat) l = true) : listHasSub pat l = true := by
  induction l with
  | nil => simp [listHasSub, listStartsWith] at h
  | cons b bs ih =>
    simp only [listHasSub, Bool.or_eq_true] at h ⊢
    rcases h with h | h
    · simp only [listStartsWith, Bool.and_eq_true] at h
      exact Or.inr (listHasSub_of_listStartsWith h.2)
    · exact Or.inr (ih h)

/-- A URL containing `"/cid/"` also contains `"cid/"` (the substring the
extractor tests for). -/
theorem pyContains_cid_of_slash {s : String}
    (h : pyContains s "/cid/" = true) : pyContains s "cid/" = true := by
  have h' : listHasSub ('/' :: "cid/".toList) s.toList = true := h
  exact listHasSub_of_cons h'

/-- Once the URL contains the `cid/` marker, `_extract_config` always
returns the success shape built from that URL and the cookie jar. -/
theorem extractConfig_of_cid (email url0 urlAfterNav : String)
    (cookies : List Cookie) (now : Int) (h : pyContains url0 "cid/" = true) :
    extractConfig email url0 urlAfterNav cookies now
      = FlowResult.success
          { id := email
            csesidx := csesidxFrom url0
            config_id := configIdFrom url0
            secure_c_ses := sesCookieVal cookies
            host_c_oses := hostCookieVal cookies
            expires_at := expiresFrom cookies now } := by
  simp [extractConfig, h]

/- ------------------------------------------------------------------ -/
/- Claim theorems                                                     -/
/- ------------------------------------------------------------------ -/

/-- Claim C1: for every input email and environment, `login_and_extract`
returns exactly one of the two dict shapes — success-with-config or
failure-with-error — and any exception escaping `_run_flow` is converted
to the failure shape at the flow boundary. -/
theorem c1_login_and_extract_shape (email : String) (env : FlowEnv) :
    ((∃ cfg, loginAndExtract email env = FlowResult.success cfg)
      ∨ (∃ err, loginAndExtract email env = FlowResult.failure err))
    ∧ (∀ err, env.driverCreateRaises = none → runFlowE email env = .error err →
        loginAndExtract email env = FlowResult.failure err) := by
  constructor
  · cases h : loginAndExtract email env with
    | success cfg => exact Or.inl ⟨cfg, rfl⟩
    | failure err => exact Or.inr ⟨err, rfl⟩
  · intro err h1 h2
    simp [loginAndExtract, h1, h2]

/-- Witness for C1, at a run whose agreement-page click raises an
exception that escapes `_run_flow`. -/
theorem c1_login_and_extract_shape_witness :
    (((∃ cfg, loginAndExtract "u" envAgreeRaises = FlowResult.success cfg)
      ∨ (∃ err, loginAndExtract "u" envAgreeRaises = FlowResult.failure err))
    ∧ (∀ err, envAgreeRaises.driverCreateRaises = none →
        runFlowE "u" envAgreeRaises = .error err →
        loginAndExtract "u" envAgreeRaises = FlowResult.failure err))
    ∧ loginAndExtract "u" envAgreeRaises = FlowResult.failure "click intercepted" :=
  ⟨c1_login_and_extract_shape "u" envAgreeRaises,
   (c1_login_and_extract_shape "u" envAgreeRaises).2 "click intercepted" rfl rfl⟩

/-- Claim C3: on a URL carrying `.../cid/ACME123?csesidx=XYZ&other=1` and a
cookie jar holding both named cookies with primary expiry `E`, the
extractor returns tenant id `"ACME123"`, session index `"XYZ"`, both cookie
values, and `expires_at = E` minus 12 hours. -/
theorem c3_extract_config_markers (email sv hv : String) (E now : Int)
    (urlAfterNav : String) :
    extractConfig email
      "https://business.gemini.google/u/0/cid/ACME123?csesidx=XYZ&other=1"
      urlAfterNav
      [⟨"__Secure-C_SES", sv, some E⟩, ⟨"__Host-C_OSES", hv, none⟩] now
      = FlowResult.success
          { id := email
            csesidx := "XYZ"
            config_id := "ACME123"
            secure_c_ses := some sv
            host_c_oses := some hv
            expires_at := E - 43200 } := rfl

/-- Claim C7: when neither named cookie is in the jar, extraction still
succeeds, with both cookie fields absent and `expires_at = now + 12h`. -/
theorem c7_extract_config_cookies_absent (email url urlAfterNav : String)
    (cookies : List Cookie) (now : Int)
    (hcid : pyContains url "cid/" = true)
    (hses : cookies.find? (fun c => c.name == "__Secure-C_SES") = none)
    (hhost : cookies.find? (fun c => c.name == "__Host-C_OSES") = none) :
    extractConfig email url urlAfterNav cookies now
      = FlowResult.success
          { id := email
            csesidx := csesidxFrom url
            config_id := configIdFrom url
            secure_c_ses := none
            host_c_oses := none
            expires_at := now + 43200 } := by
  rw [extractConfig_of_cid email url urlAfterNav cookies now hcid]
  simp [sesCookieVal, hostCookieVal, expiresFrom, hses, hhost]

/-- Witness for C7 at an empty cookie jar. -/
theorem c7_extract_config_cookies_absent_witness :
    extractConfig "e" "x/cid/A?q=1" "" [] 0
      = FlowResult.success
          { id := "e"
            csesidx := csesidxFrom "x/cid/A?q=1"
            config_id := configIdFrom "x/cid/A?q=1"
            secure_c_ses := none
            host_c_oses := none
            expires_at := 0 + 43200 } :=
  c7_extract_config_cookies_absent "e" "x/cid/A?q=1" "" [] 0 rfl rfl rfl

/-- Claim C10: a URL containing `"cid/"` but no `"csesidx="` still
extracts successfully, with the session index silently left empty. -/
theorem c10_extract_config_missing_csesidx (email url urlAfterNav : String)
    (cookies : List Cookie) (now : Int)
    (hcid : pyContains url "cid/" = true)
    (hno : pyContains url "csesidx=" = false) :
    ∃ cfg, extractConfig email url urlAfterNav cookies now
        = FlowResult.success cfg ∧ cfg.csesidx = "" := by
  refine ⟨_, extractConfig_of_cid email url urlAfterNav cookies now hcid, ?_⟩
  simp [csesidxFrom, hno]

/-- Witness for C10. -/
theorem c10_extract_config_missing_csesidx_witness :
    ∃ cfg, extractConfig "e" "x/cid/A" "" [] 0
        = FlowResult.success cfg ∧ cfg.csesidx = "" :=
  c10_extract_config_missing_csesidx "e" "x/cid/A" "" [] 0 rfl rfl

/-- Claim C6: if the URL after the initial navigation already carries the
business host, the session-index marker and the tenant-id path segment,
the flow goes straight to extraction and returns success; no email entry,
continue click, send-code click, or CodeSource poll happens. -/
theorem c6_already_authenticated_short_circuit (email : String) (env : FlowEnv)
    (h1 : pyContains env.urlAfterLogin "business.gemini.google" = true)
    (h2 : pyContains env.urlAfterLogin "csesidx=" = true)
    (h3 : pyContains env.urlAfterLogin "/cid/" = true) :
    runFlowE email env
      = .ok (extractConfig email env.urlAfterLogin env.extractUrlAfterNav
               env.cookies env.now, [Ev.extractCfg])
    ∧ (∃ cfg, extractConfig email env.urlAfterLogin env.extractUrlAfterNav
                env.cookies env.now = FlowResult.success cfg)
    ∧ Ev.enterEmail ∉ flowTraceOf email env
    ∧ Ev.clickContinue ∉ flowTraceOf email env
    ∧ Ev.sendCodeClick ∉ flowTraceOf email env
    ∧ (flowTraceOf email env).filter evIsPoll = [] := by
  have hbp : hasBusinessParams env.urlAfterLogin = true := by
    simp [hasBusinessParams, h1, h2, h3]
  have hrun : runFlowE email env
      = .ok (extractConfig email env.urlAfterLogin env.extractUrlAfterNav
               env.cookies env.now, [Ev.extractCfg]) := by
    simp [runFlowE, hbp]
  refine ⟨hrun, ?_, ?_, ?_, ?_, ?_⟩
  · exact ⟨_, extractConfig_of_cid email env.urlAfterLogin env.extractUrlAfterNav
      env.cookies env.now (pyContains_cid_of_slash h3)⟩
  all_goals simp [flowTraceOf, hrun, evIsPoll]

/-- Witness for C6 at an already-authenticated session. -/
theorem c6_already_authenticated_short_circuit_witness :
    runFlowE "u" envAlreadyAuthed
      = .ok (extractConfig "u" envAlreadyAuthed.urlAfterLogin
               envAlreadyAuthed.extractUrlAfterNav envAlreadyAuthed.cookies
               envAlreadyAuthed.now, [Ev.extractCfg])
    ∧ (∃ cfg, extractConfig "u" envAlreadyAuthed.urlAfterLogin
                envAlreadyAuthed.extractUrlAfterNav envAlreadyAuthed.cookies
                envAlreadyAuthed.now = FlowResult.success cfg)
    ∧ Ev.enterEmail ∉ flowTraceOf "u" envAlreadyAuthed
    ∧ Ev.clickContinue ∉ flowTraceOf "u" envAlreadyAuthed
    ∧ Ev.sendCodeClick ∉ flowTraceOf "u" envAlreadyAuthed
    ∧ (flowTraceOf "u" envAlreadyAuthed).filter evIsPoll = [] :=
  c6_already_authenticated_short_circuit "u" envAlreadyAuthed rfl rfl rfl

/-- A captcha observed at the current probe iteration ends the send-code
loop at once, whatever the window still holds. -/
theorem clickSendCodeLoop_captcha (env : FlowEnv) (fuel i : Nat)
    (h : env.captchaAt i = true) :
    clickSendCodeLoop env (fuel + 1) i = SendCodeOutcome.captcha := by
  simp [clickSendCodeLoop, h]

/-- Counterexample to C2 as stated: with a challenge widget present when
the probe starts, the flow's failure reason is the very same generic
`"send code button not found"` string produced when no send-code control
exists at all — not a distinct ChallengeDetected reason.  Only an internal
warning log (the `captcha` outcome) distinguishes the two runs. -/
theorem c2_challenge_reason_counterexample :
    loginAndExtract "user@example.com" envCaptcha
      = FlowResult.failure "send code button not found"
    ∧ loginAndExtract "user@example.com" envQuiet
      = FlowResult.failure "send code button not found"
    ∧ clickSendCodeButton envCaptcha = SendCodeOutcome.captcha
    ∧ clickSendCodeButton envQuiet = SendCodeOutcome.notFound := by
  decide

/-- Claim C2 as amended: if a challenge widget is present when the
RequestCode probe begins (and no code field is visible), the step detects
it distinctly (the `captcha` outcome, logged as a dedicated warning) and
fails on its first iteration without further probing; the flow then stops
— no code entry, verify, username or extraction step runs — but the
flow-boundary error is the same generic `"send code button not found"`
string used when no send-code control exists. -/
theorem c2_challenge_amended (email : String) (env : FlowEnv)
    (hb : hasBusinessParams env.urlAfterLogin = false)
    (he : env.emailOk = true)
    (hc : env.continueOk = true)
    (hpre : env.codeInputPre = false)
    (hcap : env.captchaAt 0 = true) :
    clickSendCodeButton env = SendCodeOutcome.captcha
    ∧ runFlowE email env
        = .ok (FlowResult.failure "send code button not found",
               [Ev.enterEmail, Ev.clickContinue]) := by
  have h1 : clickSendCodeButton env = SendCodeOutcome.captcha := by
    have h10 : sendCodeIters = 9 + 1 := rfl
    simp [clickSendCodeButton, hpre, h10, clickSendCodeLoop_captcha env 9 0 hcap]
  refine ⟨h1, ?_⟩
  simp [runFlowE, hb, he, hc, h1]

/-- Witness for the amended C2 at a concrete captcha-blocked run. -/
theorem c2_challenge_amended_witness :
    clickSendCodeButton envCaptcha = SendCodeOutcome.captcha
    ∧ runFlowE "u" envCaptcha
        = .ok (FlowResult.failure "send code button not found",
               [Ev.enterEmail, Ev.clickContinue]) :=
  c2_challenge_amended "u" envCaptcha rfl rfl rfl rfl rfl

/-- No CodeSource poll happens after the RetrieveCode step: the tail of the
flow emits no poll event. -/
theorem businessPhase_no_poll (email : String) (env : FlowEnv) :
    ((businessPhase email env).2).filter evIsPoll = [] := by
  cases hbc : pyContains env.urlAfterBusinessNav "cid" <;>
    cases hw1 : waitForBusinessParams env.bpUrl1 <;>
      cases hw2 : waitForBusinessParams env.bpUrl2 <;>
        simp [businessPhase, hbc, hw1, hw2, evIsPoll]

/-- The verify click never occurs in the tail of the flow. -/
theorem businessPhase_no_verify (email : String) (env : FlowEnv) :
    Ev.verifyClick ∉ (businessPhase email env).2 := by
  cases hbc : pyContains env.urlAfterBusinessNav "cid" <;>
    cases hw1 : waitForBusinessParams env.bpUrl1 <;>
      cases hw2 : waitForBusinessParams env.bpUrl2 <;>
        simp [businessPhase, hbc, hw1, hw2]

/-- The business navigation always reaches the AwaitBusinessParams tail:
when the first wait times out there is exactly one refresh and a second
wait, and a second timeout is terminal with no extraction. -/
theorem businessPhase_retry (email : String) (env : FlowEnv)
    (h1 : waitForBusinessParams env.bpUrl1 = false) :
    ((businessPhase email env).2).count Ev.refreshPage = 1
    ∧ ((businessPhase email env).2).count Ev.bpPoll = 2
    ∧ (waitForBusinessParams env.bpUrl2 = false →
        (businessPhase email env).1 = FlowResult.failure "URL parameters not found"
        ∧ Ev.extractCfg ∉ (businessPhase email env).2) := by
  cases hbc : pyContains env.urlAfterBusinessNav "cid" <;>
    cases hw2 : waitForBusinessParams env.bpUrl2 <;>
      simp [businessPhase, hbc, h1, hw2, List.count_cons]

/-- Modelled CodeSource contract: a returned code always comes from a
message not older than the `since_time` bound. -/
theorem pollForCode_since_le {msgs : List (Nat × String)} {t iv s : Nat}
    {p : Nat × String} (h : pollForCode msgs t iv s = some p) : s ≤ p.1 := by
  unfold pollForCode at h
  cases hl : msgs.filter (fun m => s ≤ m.1) with
  | nil => rw [hl] at h; cases h
  | cons a l =>
    rw [hl] at h
    have hpa : p = a := by
      simp only [List.head?] at h
      exact (Option.some.injEq _ _ ▸ h :).symm
    have ha : a ∈ msgs.filter (fun m => s ≤ m.1) := by
      rw [hl]; exact List.mem_cons_self a l
    have hdec := (List.mem_filter.mp ha).2
    rw [hpa]
    exact of_decide_eq_true hdec

/-- Claim C4: a run that reaches RetrieveCode makes exactly one CodeSource
poll, with a 40-unit deadline, 4-unit interval and a not-before bound equal
to the timestamp recorded at the ClickContinue instant; if the poll yields
nothing the flow fails terminally, and any code the poll does yield comes
from a message not older than that instant. -/
theorem c4_retrieve_code_poll (email : String) (env : FlowEnv)
    (hb : hasBusinessParams env.urlAfterLogin = false)
    (he : env.emailOk = true)
    (hc : env.continueOk = true)
    (hs : clickSendCodeButton env = SendCodeOutcome.alreadyHasInput)
    (hw : waitForCodeInput env.codeInputWaitAt = true)
    (ha : agreementRaise env = none) :
    ∃ r tr, runFlowE email env = .ok (r, tr)
      ∧ tr.filter evIsPoll = [Ev.pollCode 40 4 env.clickContinueTime]
      ∧ (pollForCode env.mailMsgs 40 4 env.clickContinueTime = none →
          r = FlowResult.failure "verification code timeout")
      ∧ (∀ ts code, pollForCode env.mailMsgs 40 4 env.clickContinueTime
            = some (ts, code) → env.clickContinueTime ≤ ts) := by
  cases hp : pollForCode env.mailMsgs 40 4 env.clickContinueTime with
  | none =>
    have hrun : runFlowE email env
        = .ok (FlowResult.failure "verification code timeout",
               [Ev.enterEmail, Ev.clickContinue,
                Ev.pollCode 40 4 env.clickContinueTime]) := by
      simp [runFlowE, hb, he, hc, hs, hw, hp]
    exact ⟨_, _, hrun, by simp [evIsPoll], fun _ => rfl, fun _ _ h => nomatch h⟩
  | some p =>
    obtain ⟨ts, c⟩ := p
    have hsafe : ∀ ts' code, some (ts, c) = some (ts', code) →
        env.clickContinueTime ≤ ts' :=
      fun _ _ h => pollForCode_since_le (hp.trans h)
    cases hq : (c == "") with
    | true =>
      have hrun : runFlowE email env
          = .ok (FlowResult.failure "verification code timeout",
                 [Ev.enterEmail, Ev.clickContinue,
                  Ev.pollCode 40 4 env.clickContinueTime]) := by
        simp [runFlowE, hb, he, hc, hs, hw, hp, hq]
      exact ⟨_, _, hrun, by simp [evIsPoll], fun _ => rfl, hsafe⟩
    | false =>
      cases hpp : (env.pinFieldOk || env.spanFallbackOk) with
      | false =>
        have hrun : runFlowE email env
            = .ok (FlowResult.failure ("failed to input code: " ++ env.codeEnterErr),
                   [Ev.enterEmail, Ev.clickContinue,
                    Ev.pollCode 40 4 env.clickContinueTime, Ev.enterCode c]) := by
          simp [runFlowE, hb, he, hc, hs, hw, hp, hq, postCodePhase, hpp]
        refine ⟨_, _, hrun, by simp [evIsPoll], ?_, hsafe⟩
        intro h; simp at h
      | true =>
        cases hv : clickVerifyChoice env.verifyFixedPresent env.verifyButtons with
        | none =>
          have hrun : runFlowE email env
              = .ok ((businessPhase email env).1,
                     [Ev.enterEmail, Ev.clickContinue,
                      Ev.pollCode 40 4 env.clickContinueTime, Ev.enterCode c,
                      Ev.navBusiness] ++ (businessPhase email env).2) := by
            simp [runFlowE, hb, he, hc, hs, hw, hp, hq, postCodePhase, hpp, ha, hv]
          refine ⟨_, _, hrun, ?_, ?_, hsafe⟩
          · simp [List.filter_append, evIsPoll, businessPhase_no_poll]
          · intro h; simp at h
        | some v =>
          have hrun : runFlowE email env
              = .ok ((businessPhase email env).1,
                     [Ev.enterEmail, Ev.clickContinue,
                      Ev.pollCode 40 4 env.clickContinueTime, Ev.enterCode c,
                      Ev.verifyClick, Ev.navBusiness] ++ (businessPhase email env).2) := by
            simp [runFlowE, hb, he, hc, hs, hw, hp, hq, postCodePhase, hpp, ha, hv]
          refine ⟨_, _, hrun, ?_, ?_, hsafe⟩
          · simp [List.filter_append, evIsPoll, businessPhase_no_poll]
          · intro h; simp at h

/-- Witness for C4 at the all-succeeding run. -/
theorem c4_retrieve_code_poll_witness :
    ∃ r tr, runFlowE "u" baseEnv = .ok (r, tr)
      ∧ tr.filter evIsPoll = [Ev.pollCode 40 4 baseEnv.clickContinueTime]
      ∧ (pollForCode baseEnv.mailMsgs 40 4 baseEnv.clickContinueTime = none →
          r = FlowResult.failure "verification code timeout")
      ∧ (∀ ts code, pollForCode baseEnv.mailMsgs 40 4 baseEnv.clickContinueTime
            = some (ts, code) → baseEnv.clickContinueTime ≤ ts) :=
  c4_retrieve_code_poll "u" baseEnv rfl rfl rfl rfl rfl rfl

/-- Claim C5: when the AwaitBusinessParams poll times out once, the flow
refreshes exactly once and re-polls exactly once; a second timeout is a
terminal failure with no extraction and no further refresh or poll. -/
theorem c5_business_params_retry (email : String) (env : FlowEnv) (ts : Nat)
    (c : String)
    (hb : hasBusinessParams env.urlAfterLogin = false)
    (he : env.emailOk = true)
    (hc : env.continueOk = true)
    (hs : clickSendCodeButton env = SendCodeOutcome.alreadyHasInput)
    (hw : waitForCodeInput env.codeInputWaitAt = true)
    (hp : pollForCode env.mailMsgs 40 4 env.clickContinueTime = some (ts, c))
    (hq : (c == "") = false)
    (hpin : env.pinFieldOk = true)
    (ha : agreementRaise env = none)
    (h1 : waitForBusinessParams env.bpUrl1 = false) :
    ∃ r tr, runFlowE email env = .ok (r, tr)
      ∧ tr.count Ev.refreshPage = 1
      ∧ tr.count Ev.bpPoll = 2
      ∧ (waitForBusinessParams env.bpUrl2 = false →
          r = FlowResult.failure "URL parameters not found"
          ∧ Ev.extractCfg ∉ tr) := by
  have hpp : (env.pinFieldOk || env.spanFallbackOk) = true := by simp [hpin]
  obtain ⟨hr1, hr2, hr3⟩ := businessPhase_retry email env h1
  cases hv : clickVerifyChoice env.verifyFixedPresent env.verifyButtons with
  | none =>
    have hrun : runFlowE email env
        = .ok ((businessPhase email env).1,
               [Ev.enterEmail, Ev.clickContinue,
                Ev.pollCode 40 4 env.clickContinueTime, Ev.enterCode c,
                Ev.navBusiness] ++ (businessPhase email env).2) := by
      simp [runFlowE, hb, he, hc, hs, hw, hp, hq, postCodePhase, hpp, ha, hv]
    refine ⟨_, _, hrun, ?_, ?_, ?_⟩
    · simp [List.count_append, List.count_cons, hr1]
    · simp [List.count_append, List.count_cons, hr2]
    · intro h2
      obtain ⟨hf, hne⟩ := hr3 h2
      exact ⟨hf, by simp [hne]⟩
  | some v =>
    have hrun : runFlowE email env
        = .ok ((businessPhase email env).1,
               [Ev.enterEmail, Ev.clickContinue,
                Ev.pollCode 40 4 env.clickContinueTime, Ev.enterCode c,
                Ev.verifyClick, Ev.navBusiness] ++ (businessPhase email env).2) := by
      simp [runFlowE, hb, he, hc, hs, hw, hp, hq, postCodePhase, hpp, ha, hv]
    refine ⟨_, _, hrun, ?_, ?_, ?_⟩
    · simp [List.count_append, List.count_cons, hr1]
    · simp [List.count_append, List.count_cons, hr2]
    · intro h2
      obtain ⟨hf, hne⟩ := hr3 h2
      exact ⟨hf, by simp [hne]⟩

/-- Witness for C5 at a run whose business URL never gains the markers. -/
theorem c5_business_params_retry_witness :
    ∃ r tr, runFlowE "u" envParamsNever = .ok (r, tr)
      ∧ tr.count Ev.refreshPage = 1
      ∧ tr.count Ev.bpPoll = 2
      ∧ (waitForBusinessParams envParamsNever.bpUrl2 = false →
          r = FlowResult.failure "URL parameters not found"
          ∧ Ev.extractCfg ∉ tr) :=
  c5_business_params_retry "u" envParamsNever 150 "123456"
    rfl rfl rfl rfl rfl rfl rfl rfl rfl (by decide)

/-- The ClickVerify step clicks something exactly when the fixed control
exists or some button's text contains the Chinese keyword `"验证"`. -/
theorem clickVerifyChoice_isSome_iff (fp : Bool) (buttons : List String) :
    (clickVerifyChoice fp buttons).isSome = true
      ↔ (fp = true ∨ ∃ b ∈ buttons, pyContains b "验证" = true) := by
  cases fp with
  | true => simp [clickVerifyChoice]
  | false => simp [clickVerifyChoice, List.find?_isSome]

/-- Counterexample to C8 as stated: with the fixed control absent and a
single button labelled "Verify" — which the spec's bilingual keyword test
matches — the code clicks nothing (its fallback scan tests only the
Chinese `"验证"`), yet the flow still proceeds to the business page. -/
theorem c8_verify_bilingual_counterexample :
    (flowTraceOf "u" envVerifyEn).count Ev.verifyClick = 0
    ∧ Ev.navBusiness ∈ flowTraceOf "u" envVerifyEn
    ∧ specVerifyMatch "Verify" = true
    ∧ clickVerifyChoice false ["Verify"] = none
    ∧ specClickVerifyChoice false ["Verify"]
        = some (VerifyClick.scanned "Verify") := by
  decide

/-- Claim C8 as amended: in the ClickVerify step the fixed control is
tried first and otherwise all buttons are scanned for the Chinese
`"验证"` keyword only (the first match is click-dispatched); whatever
happens — including both lookups failing — the step never fails the flow,
which always proceeds to the business-page navigation. -/
theorem c8_verify_amended (email : String) (env : FlowEnv) (ts : Nat)
    (c : String)
    (hb : hasBusinessParams env.urlAfterLogin = false)
    (he : env.emailOk = true)
    (hc : env.continueOk = true)
    (hs : clickSendCodeButton env = SendCodeOutcome.alreadyHasInput)
    (hw : waitForCodeInput env.codeInputWaitAt = true)
    (hp : pollForCode env.mailMsgs 40 4 env.clickContinueTime = some (ts, c))
    (hq : (c == "") = false)
    (hpin : env.pinFieldOk = true)
    (ha : agreementRaise env = none) :
    ∃ r tr, runFlowE email env = .ok (r, tr)
      ∧ Ev.navBusiness ∈ tr
      ∧ ((Ev.verifyClick ∈ tr)
          ↔ (env.verifyFixedPresent = true
              ∨ ∃ b ∈ env.verifyButtons, pyContains b "验证" = true)) := by
  have hpp : (env.pinFieldOk || env.spanFallbackOk) = true := by simp [hpin]
  have hiff := clickVerifyChoice_isSome_iff env.verifyFixedPresent env.verifyButtons
  cases hv : clickVerifyChoice env.verifyFixedPresent env.verifyButtons with
  | none =>
    rw [hv] at hiff
    have hrun : runFlowE email env
        = .ok ((businessPhase email env).1,
               [Ev.enterEmail, Ev.clickContinue,
                Ev.pollCode 40 4 env.clickContinueTime, Ev.enterCode c,
                Ev.navBusiness] ++ (businessPhase email env).2) := by
      simp [runFlowE, hb, he, hc, hs, hw, hp, hq, postCodePhase, hpp, ha, hv]
    refine ⟨_, _, hrun, by simp, ?_⟩
    apply iff_of_false
    · simp [businessPhase_no_verify]
    · intro hcontra
      exact absurd (hiff.mpr hcontra) (by simp)
  | some v =>
    rw [hv] at hiff
    have hrun : runFlowE email env
        = .ok ((businessPhase email env).1,
               [Ev.enterEmail, Ev.clickContinue,
                Ev.pollCode 40 4 env.clickContinueTime, Ev.enterCode c,
                Ev.verifyClick, Ev.navBusiness] ++ (businessPhase email env).2) := by
      simp [runFlowE, hb, he, hc, hs, hw, hp, hq, postCodePhase, hpp, ha, hv]
    refine ⟨_, _, hrun, by simp, ?_⟩
    apply iff_of_true
    · simp
    · exact hiff.mp (by simp)

/-- Witness for the amended C8: the fixed control exists in `baseEnv`, so
the verify click occurs. -/
theorem c8_verify_amended_witness :
    ∃ r tr, runFlowE "u" baseEnv = .ok (r, tr)
      ∧ Ev.navBusiness ∈ tr
      ∧ ((Ev.verifyClick ∈ tr)
          ↔ (baseEnv.verifyFixedPresent = true
              ∨ ∃ b ∈ baseEnv.verifyButtons, pyContains b "验证" = true)) :=
  c8_verify_amended "u" baseEnv 150 "123456" rfl rfl rfl rfl rfl rfl rfl rfl rfl

/-- A probe whose predicate never holds gives up once its iteration budget
(the time window divided by the sleep interval) is spent. -/
theorem probeLoop_false {p : Nat → Bool} (hp : ∀ i, p i = false) :
    ∀ fuel i, probeLoop p fuel i = false := by
  intro fuel
  induction fuel with
  | zero => intro i; rfl
  | succ n ih => intro i; simp [probeLoop, hp, ih]

/-- The send-code probe loop with nothing to find ends in `notFound` once
its window is spent. -/
theorem clickSendCodeLoop_never (env : FlowEnv)
    (hcap : ∀ i, env.captchaAt i = false)
    (hci : ∀ i, env.codeInputAtSend i = false)
    (hlb : ∀ i, env.legacyBtnAt i = false)
    (hcand : ∀ i, (env.sendCandidatesAt i).any sendCandidateHit = false) :
    ∀ fuel i, clickSendCodeLoop env fuel i = SendCodeOutcome.notFound := by
  intro fuel
  induction fuel with
  | zero => intro i; rfl
  | succ n ih => intro i; simp [clickSendCodeLoop, hcap, hci, hlb, hcand, ih]

/-- Claim C9: every polling wait is bounded by its window — when the
awaited condition never holds, `_wait_for_code_input`,
`_wait_for_business_params`, `_wait_for_cid`, `_click_send_code_button`
and the username-setup probe each return their timeout/failure outcome
after their bounded number of iterations instead of hanging. -/
theorem c9_bounded_waits (present : Nat → Bool) (urlAt urlAt2 : Nat → String)
    (env : FlowEnv)
    (hpres : ∀ i, present i = false)
    (hbp : ∀ i, businessParamsReady (urlAt i) = false)
    (hcid : ∀ i, pyContains (urlAt2 i) "cid" = false)
    (hpre : env.codeInputPre = false)
    (hcap : ∀ i, env.captchaAt i = false)
    (hci : ∀ i, env.codeInputAtSend i = false)
    (hlb : ∀ i, env.legacyBtnAt i = false)
    (hcand : ∀ i, (env.sendCandidatesAt i).any sendCandidateHit = false)
    (hun : ∀ i, env.usernameVisibleAt i = false) :
    waitForCodeInput present = false
    ∧ waitForBusinessParams urlAt = false
    ∧ waitForCid urlAt2 = false
    ∧ clickSendCodeButton env = SendCodeOutcome.notFound
    ∧ handleUsernameSetup env = false := by
  refine ⟨probeLoop_false hpres 100 0, ?_, ?_, ?_, ?_⟩
  · simp [waitForBusinessParams, hbp]
  · simp [waitForCid, hcid]
  · simp [clickSendCodeButton, hpre, clickSendCodeLoop_never env hcap hci hlb hcand]
  · unfold handleUsernameSetup
    split
    · rfl
    · simp [probeLoop_false hun]

/-- Witness for C9: a world in which nothing ever appears. -/
theorem c9_bounded_waits_witness :
    waitForCodeInput (fun _ => false) = false
    ∧ waitForBusinessParams (fun _ => "") = false
    ∧ waitForCid (fun _ => "") = false
    ∧ clickSendCodeButton envQuiet = SendCodeOutcome.notFound
    ∧ handleUsernameSetup envQuiet = false :=
  c9_bounded_waits (fun _ => false) (fun _ => "") (fun _ => "") envQuiet
    (fun _ => rfl) (fun _ => rfl) (fun _ => rfl) rfl
    (fun _ => rfl) (fun _ => rfl) (fun _ => rfl) (fun _ => rfl) (fun _ => rfl)

end GeminiUC
